import Mathlib

/-!
Formal model of the Mecanica-Simulare 2D physics core: shape colliders
(box, circle, triangle) with pairwise overlap tests, the collision
resolver, and the fixed-timestep integrator.  Geometry is modelled over
the rationals.  The only irrational primitive the code uses, Math.hypot,
is kept abstract as a square-root parameter sq applied to the sum of
squares; theorems whose truth depends on its value assume its defining
equations at exactly the points where the code evaluates it.
-/

namespace MecSim

/-- A 2D point with rational coordinates (the `{x, y}` literals of the source). -/
structure Pt where
  x : ℚ
  y : ℚ
  deriving DecidableEq

/-- The tagged collider variant from Collider.js: BoxCollider (offsetX,
offsetY, width, height), CircleCollider (offsetX, offsetY, radius) and
TriangleCollider (exactly three vertices relative to body position plus
offset, per the source constructor default). -/
inductive Collider where
  | box (offsetX offsetY width height : ℚ)
  | circle (offsetX offsetY radius : ℚ)
  | triangle (v0 v1 v2 : Pt) (offsetX offsetY : ℚ)
  deriving DecidableEq

/-- The GameObject state from GameObject.js.  The cosmetic string fields
(spriteSrc, color) play no role in any claim and are omitted. -/
structure Body where
  x : ℚ
  y : ℚ
  width : ℚ
  height : ℚ
  hasGravity : Bool
  vx : ℚ
  vy : ℚ
  ax : ℚ
  ay : ℚ
  mass : ℚ
  forces : List (ℚ × ℚ)
  collider : Option Collider
  rotation : ℚ
  deriving DecidableEq

/-- The GameObject constructor (GameObject.js lines 19-28): it stores every
argument verbatim, with the class-level defaults for the remaining fields
(hasGravity true, zero velocity/acceleration/rotation, empty force list).
There is no validation of any argument. -/
def mkGameObject (x y width height mass : ℚ) (collider : Option Collider) : Body :=
  { x := x, y := y, width := width, height := height, mass := mass,
    hasGravity := true, vx := 0, vy := 0, ax := 0, ay := 0,
    forces := [], collider := collider, rotation := 0 }

/-- Pixels per meter (part_000 line 16). -/
def PPM : ℚ := 100

/-- The gravitational constant 9.8 * PPM (part_000 line 17). -/
def GRAVITY : ℚ := 9.8 * PPM

/-- Frames per second (part_000 line 9). -/
def tickrate : ℚ := 60

/-- Tick interval in milliseconds (part_000 line 10). -/
def tickInterval : ℚ := 1000 / tickrate

/-- Fixed timestep in seconds used by update() (part_000 line 281). -/
def deltaTime : ℚ := tickInterval / 1000

/-- The sign-branching core of TriangleCollider.pointInTriangle
(GameObject.js lines 193-194): with barycentric-style numerators s, t and
denominator D, the negative-orientation branch tests s, t nonpositive with
s + t above D, the other branch tests s, t nonnegative with s + t below D. -/
def insideTest (s t D : ℚ) : Bool :=
  if D < 0 then decide (s ≤ 0 ∧ t ≤ 0 ∧ D ≤ s + t)
  else decide (0 ≤ s ∧ 0 ≤ t ∧ s + t ≤ D)

/-- TriangleCollider.pointInTriangle (GameObject.js lines 185-195).  The
source locals are inlined: dX = px - v2.x, dY = py - v2.y,
dX21 = v2.x - v1.x, dY12 = v1.y - v2.y,
s = dY12 * dX + dX21 * dY,
t = (v2.y - v0.y) * dX + (v0.x - v2.x) * dY,
D = dY12 * (v0.x - v2.x) + dX21 * (v0.y - v2.y). -/
def pointInTriangle (px py : ℚ) (v0 v1 v2 : Pt) : Bool :=
  insideTest
    ((v1.y - v2.y) * (px - v2.x) + (v2.x - v1.x) * (py - v2.y))
    ((v2.y - v0.y) * (px - v2.x) + (v0.x - v2.x) * (py - v2.y))
    ((v1.y - v2.y) * (v0.x - v2.x) + (v2.x - v1.x) * (v0.y - v2.y))

section CollisionTests

variable (sq : ℚ → ℚ)

/-- The box-vs-box branch of BoxCollider.isCollidingWith (GameObject.js
lines 53-65): a strict AABB overlap test in world space. -/
def boxBoxTest (aOffX aOffY aW aH bOffX bOffY bW bH : ℚ)
    (selfObj otherObj : Body) : Bool :=
  let aX := selfObj.x + aOffX
  let aY := selfObj.y + aOffY
  let bX := otherObj.x + bOffX
  let bY := otherObj.y + bOffY
  decide (aX < bX + bW ∧ aX + aW > bX ∧ aY < bY + bH ∧ aY + aH > bY)

/-- The box-vs-circle branch of BoxCollider.isCollidingWith (GameObject.js
lines 66-79): clamp the circle center to the rectangle and compare the
squared distance with the squared radius. -/
def boxCircleTest (rOffX rOffY rW rH cOffX cOffY cRad : ℚ)
    (boxObj circObj : Body) : Bool :=
  let rx := boxObj.x + rOffX
  let ry := boxObj.y + rOffY
  let cx := circObj.x + cOffX + cRad
  let cy := circObj.y + cOffY + cRad
  let closestX := max rx (min cx (rx + rW))
  let closestY := max ry (min cy (ry + rH))
  let dx := cx - closestX
  let dy := cy - closestY
  decide (dx * dx + dy * dy < cRad * cRad)

/-- The circle-vs-circle branch of CircleCollider.isCollidingWith
(GameObject.js lines 98-108): squared center distance strictly below the
squared sum of radii. -/
def circleCircleTest (aOffX aOffY aRad bOffX bOffY bRad : ℚ)
    (selfObj otherObj : Body) : Bool :=
  let aX := selfObj.x + aOffX + aRad
  let aY := selfObj.y + aOffY + aRad
  let bX := otherObj.x + bOffX + bRad
  let bY := otherObj.y + bOffY + bRad
  let dx := aX - bX
  let dy := aY - bY
  let rSum := aRad + bRad
  decide (dx * dx + dy * dy < rSum * rSum)

/-- One iteration of the triangle-edge loop shared by the circle-vs-triangle
tests (GameObject.js lines 129-169 and 254-294): project the circle center
onto the edge direction normalized by edgeLength = hypot(edge), clamp to
[0, edgeLength], and compare the squared distance from the closest point.
Math.hypot is modelled by sq applied to the sum of squares.  For a
zero-length edge the JS division produces NaN and the final comparison is
false; with rational division by zero equal to zero the closest point
degenerates to the edge start and the comparison can hold, a deviation no
claim depends on (the symmetry claim compares two identical copies of this
computation). -/
def edgeCircleHit (cx cy r : ℚ) (p1 p2 : Pt) : Bool :=
  let ex := p2.x - p1.x
  let ey := p2.y - p1.y
  let tx := cx - p1.x
  let ty := cy - p1.y
  let edgeLength := sq (ex * ex + ey * ey)
  let ux := ex / edgeLength
  let uy := ey / edgeLength
  let proj := tx * ux + ty * uy
  let projClamped := max 0 (min proj edgeLength)
  let px := p1.x + ux * projClamped
  let py := p1.y + uy * projClamped
  let ddx := cx - px
  let ddy := cy - py
  decide (ddx * ddx + ddy * ddy < r * r)

/-- The circle-vs-triangle branch of CircleCollider.isCollidingWith
(GameObject.js lines 112-170): circle center inside the triangle, or any
of the three edges within the radius. -/
def circleTriangleTest (cOffX cOffY cRad tOffX tOffY : ℚ) (t0 t1 t2 : Pt)
    (circObj triObj : Body) : Bool :=
  let cx := circObj.x + cOffX + cRad
  let cy := circObj.y + cOffY + cRad
  let w0 : Pt := ⟨triObj.x + tOffX + t0.x, triObj.y + tOffY + t0.y⟩
  let w1 : Pt := ⟨triObj.x + tOffX + t1.x, triObj.y + tOffY + t1.y⟩
  let w2 : Pt := ⟨triObj.x + tOffX + t2.x, triObj.y + tOffY + t2.y⟩
  if pointInTriangle cx cy w0 w1 w2 then true
  else
    edgeCircleHit sq cx cy cRad w0 w1 ||
    edgeCircleHit sq cx cy cRad w1 w2 ||
    edgeCircleHit sq cx cy cRad w2 w0

/-- The triangle-vs-circle branch of TriangleCollider.isCollidingWith
(GameObject.js lines 237-295).  The source duplicates the circle-vs-triangle
algorithm verbatim with the roles of self and other swapped; this definition
transcribes that duplicate. -/
def triangleCircleTest (tOffX tOffY : ℚ) (t0 t1 t2 : Pt) (cOffX cOffY cRad : ℚ)
    (triObj circObj : Body) : Bool :=
  let cx := circObj.x + cOffX + cRad
  let cy := circObj.y + cOffY + cRad
  let w0 : Pt := ⟨triObj.x + tOffX + t0.x, triObj.y + tOffY + t0.y⟩
  let w1 : Pt := ⟨triObj.x + tOffX + t1.x, triObj.y + tOffY + t1.y⟩
  let w2 : Pt := ⟨triObj.x + tOffX + t2.x, triObj.y + tOffY + t2.y⟩
  if pointInTriangle cx cy w0 w1 w2 then true
  else
    edgeCircleHit sq cx cy cRad w0 w1 ||
    edgeCircleHit sq cx cy cRad w1 w2 ||
    edgeCircleHit sq cx cy cRad w2 w0

/-- The triangle-vs-triangle branch of TriangleCollider.isCollidingWith
(GameObject.js lines 203-215): any vertex of one triangle inside the other,
in both directions. -/
def triangleTriangleTest (aOffX aOffY : ℚ) (a0 a1 a2 : Pt)
    (bOffX bOffY : ℚ) (b0 b1 b2 : Pt) (selfObj otherObj : Body) : Bool :=
  let wa0 : Pt := ⟨selfObj.x + aOffX + a0.x, selfObj.y + aOffY + a0.y⟩
  let wa1 : Pt := ⟨selfObj.x + aOffX + a1.x, selfObj.y + aOffY + a1.y⟩
  let wa2 : Pt := ⟨selfObj.x + aOffX + a2.x, selfObj.y + aOffY + a2.y⟩
  let wb0 : Pt := ⟨otherObj.x + bOffX + b0.x, otherObj.y + bOffY + b0.y⟩
  let wb1 : Pt := ⟨otherObj.x + bOffX + b1.x, otherObj.y + bOffY + b1.y⟩
  let wb2 : Pt := ⟨otherObj.x + bOffX + b2.x, otherObj.y + bOffY + b2.y⟩
  let aInB :=
    pointInTriangle wa0.x wa0.y wb0 wb1 wb2 ||
    pointInTriangle wa1.x wa1.y wb0 wb1 wb2 ||
    pointInTriangle wa2.x wa2.y wb0 wb1 wb2
  let bInA :=
    pointInTriangle wb0.x wb0.y wa0 wa1 wa2 ||
    pointInTriangle wb1.x wb1.y wa0 wa1 wa2 ||
    pointInTriangle wb2.x wb2.y wa0 wa1 wa2
  aInB || bInA

/-- The triangle-vs-box branch of TriangleCollider.isCollidingWith
(GameObject.js lines 216-236): any world triangle vertex inside the box
(inclusive bounds), or any of the four box corners inside the triangle. -/
def triangleBoxTest (tOffX tOffY : ℚ) (t0 t1 t2 : Pt)
    (bOffX bOffY bW bH : ℚ) (triObj boxObj : Body) : Bool :=
  let wa0 : Pt := ⟨triObj.x + tOffX + t0.x, triObj.y + tOffY + t0.y⟩
  let wa1 : Pt := ⟨triObj.x + tOffX + t1.x, triObj.y + tOffY + t1.y⟩
  let wa2 : Pt := ⟨triObj.x + tOffX + t2.x, triObj.y + tOffY + t2.y⟩
  let bx := boxObj.x + bOffX
  let byv := boxObj.y + bOffY
  let vertInBox := fun (p : Pt) =>
    decide (p.x ≥ bx ∧ p.x ≤ bx + bW ∧ p.y ≥ byv ∧ p.y ≤ byv + bH)
  (vertInBox wa0 || vertInBox wa1 || vertInBox wa2) ||
  (pointInTriangle bx byv wa0 wa1 wa2 ||
   pointInTriangle (bx + bW) byv wa0 wa1 wa2 ||
   pointInTriangle bx (byv + bH) wa0 wa1 wa2 ||
   pointInTriangle (bx + bW) (byv + bH) wa0 wa1 wa2)

/-- The polymorphic dispatch of isCollidingWith over the two collider kinds.
Each of the nine kind pairs routes to the branch the source implements for
it; mirrored pairs that the source handles by delegation (box receiving a
triangle, GameObject.js line 82, and circle receiving a box, line 111) call
the owning implementation with the object arguments swapped, exactly as the
delegation does. -/
def isCollidingWith (self other : Collider) (selfObj otherObj : Body) : Bool :=
  match self, other with
  | .box aox aoy aw ah, .box box2 boy2 bw bh =>
      boxBoxTest aox aoy aw ah box2 boy2 bw bh selfObj otherObj
  | .box aox aoy aw ah, .circle cox coy cr =>
      boxCircleTest aox aoy aw ah cox coy cr selfObj otherObj
  | .box box2 boy2 bw bh, .triangle t0 t1 t2 tox toy =>
      triangleBoxTest tox toy t0 t1 t2 box2 boy2 bw bh otherObj selfObj
  | .circle aox aoy ar, .circle box2 boy2 br =>
      circleCircleTest aox aoy ar box2 boy2 br selfObj otherObj
  | .circle cox coy cr, .box box2 boy2 bw bh =>
      boxCircleTest box2 boy2 bw bh cox coy cr otherObj selfObj
  | .circle cox coy cr, .triangle t0 t1 t2 tox toy =>
      circleTriangleTest sq cox coy cr tox toy t0 t1 t2 selfObj otherObj
  | .triangle t0 t1 t2 tox toy, .triangle u0 u1 u2 uox uoy =>
      triangleTriangleTest tox toy t0 t1 t2 uox uoy u0 u1 u2 selfObj otherObj
  | .triangle t0 t1 t2 tox toy, .box box2 boy2 bw bh =>
      triangleBoxTest tox toy t0 t1 t2 box2 boy2 bw bh selfObj otherObj
  | .triangle t0 t1 t2 tox toy, .circle cox coy cr =>
      triangleCircleTest sq tox toy t0 t1 t2 cox coy cr selfObj otherObj

/-- The top-level pair test isColliding (part_000 lines 89-94): false unless
both bodies carry a collider. -/
def isColliding (a b : Body) : Bool :=
  match a.collider, b.collider with
  | some ca, some cb => isCollidingWith sq ca cb a b
  | _, _ => false

end CollisionTests

/-- The x-axis center offset overlapX of resolveCollision (part_000 line 239). -/
def ovX (a b : Body) : ℚ := (a.x + a.width / 2) - (b.x + b.width / 2)

/-- The y-axis center offset overlapY of resolveCollision (part_000 line 240). -/
def ovY (a b : Body) : ℚ := (a.y + a.height / 2) - (b.y + b.height / 2)

/-- halfWidths of resolveCollision (part_000 line 241). -/
def halfW (a b : Body) : ℚ := (a.width + b.width) / 2

/-- halfHeights of resolveCollision (part_000 line 242). -/
def halfH (a b : Body) : ℚ := (a.height + b.height) / 2

/-- The x-axis penetration dx of resolveCollision (part_000 line 247). -/
def penX (a b : Body) : ℚ := halfW a b - |ovX a b|

/-- The y-axis penetration dy of resolveCollision (part_000 line 248). -/
def penY (a b : Body) : ℚ := halfH a b - |ovY a b|

/-- The default resolution path of resolveCollision (part_000 lines 237-277):
if the body bounding boxes overlap on both axes, resolve along the axis of
smaller penetration, splitting the correction with aShare = b.mass/totalMass
and bShare = a.mass/totalMass and zeroing both velocities on that axis;
otherwise do nothing. -/
def defaultResolve (a b : Body) : Body × Body :=
  if |ovX a b| < halfW a b ∧ |ovY a b| < halfH a b then
    let aShare := b.mass / (a.mass + b.mass)
    let bShare := a.mass / (a.mass + b.mass)
    if penX a b < penY a b then
      if 0 < ovX a b then
        ({a with x := a.x + penX a b * aShare, vx := 0},
         {b with x := b.x - penX a b * bShare, vx := 0})
      else
        ({a with x := a.x - penX a b * aShare, vx := 0},
         {b with x := b.x + penX a b * bShare, vx := 0})
    else
      if 0 < ovY a b then
        ({a with y := a.y + penY a b * aShare, vy := 0},
         {b with y := b.y - penY a b * bShare, vy := 0})
      else
        ({a with y := a.y - penY a b * aShare, vy := 0},
         {b with y := b.y + penY a b * bShare, vy := 0})
  else (a, b)

/-- closestPointOnSegment (part_000 lines 97-106): project the point onto
the segment, clamping the parameter to [0, 1].  For a zero-length segment
the JS division is 0/0 = NaN and the caller skips the resulting candidate;
with rational division by zero equal to zero this returns the segment start,
which lies on every segment of the triangle fan the caller minimizes over,
so the caller's final minimum is unchanged. -/
def closestPointOnSegment (px py ax ay bx byv : ℚ) : Pt :=
  let abx := bx - ax
  let aby := byv - ay
  let apx := px - ax
  let apy := py - ay
  let abLenSq := abx * abx + aby * aby
  let t := (apx * abx + apy * aby) / abLenSq
  let tc := max 0 (min 1 t)
  ⟨ax + abx * tc, ay + aby * tc⟩

/-- closestPointOnTriangle (part_000 lines 108-128): the best of the three
per-edge closest points under strict-improvement updates, overridden by the
point itself when it lies inside the triangle. -/
def closestPointOnTriangle (px py : ℚ) (w0 w1 w2 : Pt) : Pt :=
  let p0 := closestPointOnSegment px py w0.x w0.y w1.x w1.y
  let d0 := (px - p0.x) * (px - p0.x) + (py - p0.y) * (py - p0.y)
  let p1 := closestPointOnSegment px py w1.x w1.y w2.x w2.y
  let d1 := (px - p1.x) * (px - p1.x) + (py - p1.y) * (py - p1.y)
  let p2 := closestPointOnSegment px py w2.x w2.y w0.x w0.y
  let d2 := (px - p2.x) * (px - p2.x) + (py - p2.y) * (py - p2.y)
  let c1 := if d1 < d0 then p1 else p0
  let m1 := if d1 < d0 then d1 else d0
  let c2 := if d2 < m1 then p2 else c1
  if pointInTriangle px py w0 w1 w2 then ⟨px, py⟩ else c2

section Resolution

variable (sq : ℚ → ℚ)

/-- The triangle-versus-dynamic-circle branch of resolveCollision (part_000
lines 135-163, and its mirror at lines 187-215): push the circle out along
the normalized closest-point-to-center vector by the overlap amount and, if
the velocity opposes that normal, remove its normal component (damping 1).
Only the circle body is produced; the triangle operand is untouched. -/
def triCircleResolve (triObj circB : Body) (tOffX tOffY : ℚ) (t0 t1 t2 : Pt)
    (cOffX cOffY cRad : ℚ) : Body :=
  let w0 : Pt := ⟨triObj.x + tOffX + t0.x, triObj.y + tOffY + t0.y⟩
  let w1 : Pt := ⟨triObj.x + tOffX + t1.x, triObj.y + tOffY + t1.y⟩
  let w2 : Pt := ⟨triObj.x + tOffX + t2.x, triObj.y + tOffY + t2.y⟩
  let cx := circB.x + cOffX + cRad
  let cy := circB.y + cOffY + cRad
  let cp := closestPointOnTriangle cx cy w0 w1 w2
  let dx := cx - cp.x
  let dy := cy - cp.y
  let dist := sq (dx * dx + dy * dy)
  let overlap := cRad - dist
  if 0 < overlap then
    let nx := dx / dist
    let ny := dy / dist
    let vDotN := circB.vx * nx + circB.vy * ny
    if vDotN < 0 then
      let damping : ℚ := 1
      { circB with
        x := circB.x + nx * overlap
        y := circB.y + ny * overlap
        vx := (circB.vx - vDotN * nx) * damping
        vy := (circB.vy - vDotN * ny) * damping }
    else
      { circB with
        x := circB.x + nx * overlap
        y := circB.y + ny * overlap }
  else circB

/-- TriangleCollider.getClosestSurfaceNormal (GameObject.js lines 299-328):
normalize each edge's outward normal by hypot and keep the normal whose
signed distance to the point is smallest in absolute value.  The JS loop
starts from minDist = Infinity, so the first edge always wins initially;
a zero-length edge would give a NaN normal skipped by the comparison in JS,
while here rational division by zero yields a zero normal, a deviation no
claim depends on. -/
def getClosestSurfaceNormal (pX pY : ℚ) (triObj : Body) (tOffX tOffY : ℚ)
    (t0 t1 t2 : Pt) : Pt :=
  let w0 : Pt := ⟨triObj.x + tOffX + t0.x, triObj.y + tOffY + t0.y⟩
  let w1 : Pt := ⟨triObj.x + tOffX + t1.x, triObj.y + tOffY + t1.y⟩
  let w2 : Pt := ⟨triObj.x + tOffX + t2.x, triObj.y + tOffY + t2.y⟩
  let edgeNormal := fun (v1 v2 : Pt) =>
    let ex := v2.x - v1.x
    let ey := v2.y - v1.y
    let len := sq (ey * ey + ex * ex)
    (⟨ey / len, -ex / len⟩ : Pt)
  let distTo := fun (n : Pt) (v1 : Pt) => (pX - v1.x) * n.x + (pY - v1.y) * n.y
  let n0 := edgeNormal w0 w1
  let d0 := distTo n0 w0
  let n1 := edgeNormal w1 w2
  let d1 := distTo n1 w1
  let n2 := edgeNormal w2 w0
  let d2 := distTo n2 w2
  let bestN1 := if |d1| < |d0| then n1 else n0
  let bestD1 := if |d1| < |d0| then d1 else d0
  if |d2| < |bestD1| then n2 else bestN1

/-- The triangle-versus-dynamic-box branch of resolveCollision (part_000
lines 166-183, and its mirror at lines 218-235): push the box by a fixed
magnitude 2 along the closest surface normal, zero the opposing normal
velocity component, and set the box rotation to atan2(ny, nx) - pi/2.
Math.atan2 and Math.PI are transcendental and are modelled by the
parameters at2 and piv; no claim constrains the rotation value. -/
def triBoxResolve (at2 : ℚ → ℚ → ℚ) (piv : ℚ) (triObj boxB : Body)
    (tOffX tOffY : ℚ) (t0 t1 t2 : Pt) : Body :=
  let n := getClosestSurfaceNormal sq (boxB.x + boxB.width / 2)
    (boxB.y + boxB.height / 2) triObj tOffX tOffY t0 t1 t2
  let b1 := {boxB with x := boxB.x + n.x * 2, y := boxB.y + n.y * 2}
  let vDotN := b1.vx * n.x + b1.vy * n.y
  let b2 :=
    if vDotN < 0 then {b1 with vx := b1.vx - vDotN * n.x, vy := b1.vy - vDotN * n.y}
    else b1
  {b2 with rotation := at2 n.y n.x - piv / 2}

/-- resolveCollision (part_000 lines 131-277).  The triangle-specific
branches fire only when one operand is a triangle, the other operand has a
circle or box collider, and that other operand has gravity; every other
combination (including triangle-triangle and a gravity-disabled partner)
falls through to the default bounding-box path. -/
def resolveCollision (at2 : ℚ → ℚ → ℚ) (piv : ℚ) (a b : Body) : Body × Body :=
  match a.collider, b.collider with
  | some (.triangle t0 t1 t2 tox toy), some (.circle cox coy cr) =>
      if b.hasGravity then (a, triCircleResolve sq a b tox toy t0 t1 t2 cox coy cr)
      else defaultResolve a b
  | some (.triangle t0 t1 t2 tox toy), some (.box _ _ _ _) =>
      if b.hasGravity then (a, triBoxResolve sq at2 piv a b tox toy t0 t1 t2)
      else defaultResolve a b
  | some (.circle cox coy cr), some (.triangle t0 t1 t2 tox toy) =>
      if a.hasGravity then (triCircleResolve sq b a tox toy t0 t1 t2 cox coy cr, b)
      else defaultResolve a b
  | some (.box _ _ _ _), some (.triangle t0 t1 t2 tox toy) =>
      if a.hasGravity then (triBoxResolve sq at2 piv b a tox toy t0 t1 t2, b)
      else defaultResolve a b
  | _, _ => defaultResolve a b

end Resolution

/-- Discriminator for an optional collider being a box or a circle. -/
def isBoxOrCircleC : Option Collider → Bool
  | some (.box _ _ _ _) => true
  | some (.circle _ _ _) => true
  | _ => false

/-- A concrete rational square-root stand-in for Math.hypot's square root:
exact whenever numerator and denominator of the (normalized) input are
perfect squares, which covers every point where concrete theorems below
evaluate it. -/
def ratSqrt (q : ℚ) : ℚ := (Nat.sqrt q.num.toNat : ℚ) / (Nat.sqrt q.den : ℚ)

/-- A throwaway stand-in for Math.atan2; no claim constrains rotation. -/
def zeroAtan : ℚ → ℚ → ℚ := fun _ _ => 0

/-- The per-body step of update() (part_000 lines 284-319): replace the
force list with gravity when enabled, sum forces, divide by mass for the
acceleration, Euler-integrate velocity then position, spin circles by
vx / radius, and clamp to the floor (zeroing vy) when the body's lower edge
passes worldHeight. -/
def updateBody (worldHeight : ℚ) (obj : Body) : Body :=
  let forces := if obj.hasGravity then [((0:ℚ), obj.mass * GRAVITY)] else obj.forces
  let totalForceX := (forces.map Prod.fst).sum
  let totalForceY := (forces.map Prod.snd).sum
  let axv := totalForceX / obj.mass
  let ayv := totalForceY / obj.mass
  let vy1 := obj.vy + ayv * deltaTime
  let vx1 := obj.vx + axv * deltaTime
  let x1 := obj.x + vx1 * deltaTime
  let y1 := obj.y + vy1 * deltaTime
  let rot1 :=
    match obj.collider with
    | some (.circle _ _ r) => obj.rotation + vx1 / r * deltaTime
    | _ => obj.rotation
  if y1 + obj.height > worldHeight then
    { obj with
      forces := forces
      ax := axv
      ay := ayv
      vx := vx1
      vy := 0
      x := x1
      y := worldHeight - obj.height
      rotation := rot1 }
  else
    { obj with
      forces := forces
      ax := axv
      ay := ayv
      vx := vx1
      vy := vy1
      x := x1
      y := y1
      rotation := rot1 }

/-- An IEEE-style number that is either an ordinary (exact rational) value
or NaN, used to track how the JavaScript resolution code behaves at the
division 0/0.  Arithmetic propagates NaN; comparisons with NaN are false;
division by zero yields NaN (in JS, 0/0 is NaN and a/0 with a nonzero is an
infinity — at every division site of this program the numerator vanishes
whenever the denominator does, so the distinction is unreachable). -/
inductive JNum where
  | nan
  | num (q : ℚ)
  deriving DecidableEq

namespace JNum

/-- NaN-propagating addition. -/
def add : JNum → JNum → JNum
  | num a, num b => num (a + b)
  | _, _ => nan

/-- NaN-propagating subtraction. -/
def sub : JNum → JNum → JNum
  | num a, num b => num (a - b)
  | _, _ => nan

/-- NaN-propagating multiplication (in JS, 0 * NaN is NaN). -/
def mul : JNum → JNum → JNum
  | num a, num b => num (a * b)
  | _, _ => nan

/-- NaN-propagating division; division by zero gives NaN. -/
def div : JNum → JNum → JNum
  | num a, num b => if b = 0 then nan else num (a / b)
  | _, _ => nan

/-- A comparison with NaN is false, as for JS `<`. -/
def lt : JNum → JNum → Bool
  | num a, num b => decide (a < b)
  | _, _ => false

end JNum

/-- The triangle-versus-circle branch of resolveCollision (part_000 lines
135-163) re-traced with JS NaN semantics from the point where the code
divides by dist = Math.hypot(dx, dy): the result is the circle body's
(x, y, vx, vy) as JS computes them.  The geometric prefix (closest point,
dist, overlap) involves no division and is shared with the rational model. -/
def triCircleResolveNaN (sq : ℚ → ℚ) (triObj circB : Body) (tOffX tOffY : ℚ)
    (t0 t1 t2 : Pt) (cOffX cOffY cRad : ℚ) : JNum × JNum × JNum × JNum :=
  let w0 : Pt := ⟨triObj.x + tOffX + t0.x, triObj.y + tOffY + t0.y⟩
  let w1 : Pt := ⟨triObj.x + tOffX + t1.x, triObj.y + tOffY + t1.y⟩
  let w2 : Pt := ⟨triObj.x + tOffX + t2.x, triObj.y + tOffY + t2.y⟩
  let cx := circB.x + cOffX + cRad
  let cy := circB.y + cOffY + cRad
  let cp := closestPointOnTriangle cx cy w0 w1 w2
  let dx := cx - cp.x
  let dy := cy - cp.y
  let dist := sq (dx * dx + dy * dy)
  let overlap := cRad - dist
  if 0 < overlap then
    let nx := JNum.div (JNum.num dx) (JNum.num dist)
    let ny := JNum.div (JNum.num dy) (JNum.num dist)
    let x1 := JNum.add (JNum.num circB.x) (JNum.mul nx (JNum.num overlap))
    let y1 := JNum.add (JNum.num circB.y) (JNum.mul ny (JNum.num overlap))
    let vDotN := JNum.add (JNum.mul (JNum.num circB.vx) nx) (JNum.mul (JNum.num circB.vy) ny)
    if JNum.lt vDotN (JNum.num 0) then
      (x1, y1,
       JNum.mul (JNum.sub (JNum.num circB.vx) (JNum.mul vDotN nx)) (JNum.num 1),
       JNum.mul (JNum.sub (JNum.num circB.vy) (JNum.mul vDotN ny)) (JNum.num 1))
    else (x1, y1, JNum.num circB.vx, JNum.num circB.vy)
  else (JNum.num circB.x, JNum.num circB.y, JNum.num circB.vx, JNum.num circB.vy)

/-- A static ground triangle with world vertices (0,0), (100,0), (0,100). -/
def triBody : Body :=
  { x := 0, y := 0, width := 600, height := 300, hasGravity := false,
    vx := 0, vy := 0, ax := 0, ay := 0, mass := 100, forces := [],
    collider := some (Collider.triangle ⟨0, 0⟩ ⟨100, 0⟩ ⟨0, 100⟩ 0 0),
    rotation := 0 }

/-- A dynamic circle of radius 15 whose center (10, 10) lies strictly inside
the triangle of triBody, so the closest triangle point is the center itself
and dist = 0. -/
def circBody : Body :=
  { x := -5, y := -5, width := 30, height := 30, hasGravity := true,
    vx := 3, vy := 5, ax := 0, ay := 0, mass := 5, forces := [],
    collider := some (Collider.circle 0 0 15), rotation := 0 }

/-- A ramp triangle with base edge from (0,0) to (100,0) and apex (50,100). -/
def triBody9 : Body :=
  { x := 0, y := 0, width := 100, height := 100, hasGravity := false,
    vx := 0, vy := 0, ax := 0, ay := 0, mass := 100, forces := [],
    collider := some (Collider.triangle ⟨0, 0⟩ ⟨100, 0⟩ ⟨50, 100⟩ 0 0),
    rotation := 0 }

/-- A dynamic circle of radius 15 with center (30, -4), 4 pixels below the
base edge of triBody9, moving down and to the right. -/
def circBody9 : Body :=
  { x := 15, y := -19, width := 30, height := 30, hasGravity := true,
    vx := 3, vy := 5, ax := 0, ay := 0, mass := 5, forces := [],
    collider := some (Collider.circle 0 0 15), rotation := 0 }

/-- A gravity-enabled body of mass 7 far above the floor. -/
def gravObj : Body := mkGameObject 0 0 30 30 7 none

/-- A box body whose collider is shifted 100 pixels right of the body
rectangle, so the shapes can overlap while the body rectangles do not. -/
def cexA1 : Body :=
  { x := 0, y := 0, width := 30, height := 30, hasGravity := true,
    vx := 5, vy := 0, ax := 0, ay := 0, mass := 7, forces := [],
    collider := some (Collider.box 100 0 30 30), rotation := 0 }

/-- A box body whose collider coincides with the position of cexA1's shifted
collider. -/
def cexB1 : Body :=
  { x := 100, y := 0, width := 30, height := 30, hasGravity := true,
    vx := -4, vy := 0, ax := 0, ay := 0, mass := 3, forces := [],
    collider := some (Collider.box 0 0 30 30), rotation := 0 }

/-- A box body with a collider wider than the body rectangle (100 versus
10): the default resolution path separates the 10-wide body rectangles, but
the 100-wide colliders still overlap afterwards. -/
def cexA8 : Body :=
  { x := 0, y := 0, width := 10, height := 10, hasGravity := true,
    vx := 5, vy := 0, ax := 0, ay := 0, mass := 1, forces := [],
    collider := some (Collider.box 0 0 100 10), rotation := 0 }

/-- The partner of cexA8, 8 pixels to its right with the same oversized
collider. -/
def cexB8 : Body :=
  { x := 8, y := 0, width := 10, height := 10, hasGravity := true,
    vx := 0, vy := 0, ax := 0, ay := 0, mass := 1, forces := [],
    collider := some (Collider.box 0 0 100 10), rotation := 0 }

/-- A box body overlapping wB1 in body space, collider equal to the body
rectangle. -/
def wA1 : Body :=
  { x := 0, y := 0, width := 30, height := 30, hasGravity := true,
    vx := 5, vy := -2, ax := 0, ay := 0, mass := 7, forces := [],
    collider := some (Collider.box 0 0 30 30), rotation := 0 }

/-- A box body overlapping wA1, collider equal to the body rectangle. -/
def wB1 : Body :=
  { x := 20, y := 3, width := 30, height := 30, hasGravity := true,
    vx := 1, vy := 4, ax := 0, ay := 0, mass := 3, forces := [],
    collider := some (Collider.box 0 0 30 30), rotation := 0 }

/-- Reversing the sign of the denominator and transposing the barycentric
numerators accordingly does not change the insideTest classification. -/
theorem insideTest_rev (s t D : ℚ) :
    insideTest (s + t - D) (-t) (-D) = insideTest s t D := by
  unfold insideTest
  rcases lt_trichotomy D 0 with hD | hD | hD
  · rw [if_neg (by linarith : ¬ -D < 0), if_pos hD]
    simp only [decide_eq_decide]
    constructor
    · rintro ⟨h1, h2, h3⟩
      exact ⟨by linarith, by linarith, by linarith⟩
    · rintro ⟨h1, h2, h3⟩
      exact ⟨by linarith, by linarith, by linarith⟩
  · subst hD
    rw [if_neg (by linarith : ¬ -(0:ℚ) < 0), if_neg (by linarith : ¬ (0:ℚ) < 0)]
    simp only [decide_eq_decide]
    constructor
    · rintro ⟨h1, h2, h3⟩
      exact ⟨by linarith, by linarith, by linarith⟩
    · rintro ⟨h1, h2, h3⟩
      exact ⟨by linarith, by linarith, by linarith⟩
  · rw [if_pos (by linarith : -D < 0), if_neg (by linarith : ¬ D < 0)]
    simp only [decide_eq_decide]
    constructor
    · rintro ⟨h1, h2, h3⟩
      exact ⟨by linarith, by linarith, by linarith⟩
    · rintro ⟨h1, h2, h3⟩
      exact ⟨by linarith, by linarith, by linarith⟩

/-- Claim C5: the point-in-triangle test is winding-independent: for every
test point and every triangle, evaluating pointInTriangle with the three
vertices in reversed order (v2, v1, v0) yields the same inside/outside
classification as the original order (v0, v1, v2). -/
theorem pointInTriangle_winding_independent (px py : ℚ) (v0 v1 v2 : Pt) :
    pointInTriangle px py v2 v1 v0 = pointInTriangle px py v0 v1 v2 := by
  unfold pointInTriangle
  have hrev := insideTest_rev
    ((v1.y - v2.y) * (px - v2.x) + (v2.x - v1.x) * (py - v2.y))
    ((v2.y - v0.y) * (px - v2.x) + (v0.x - v2.x) * (py - v2.y))
    ((v1.y - v2.y) * (v0.x - v2.x) + (v2.x - v1.x) * (v0.y - v2.y))
  calc
    insideTest
      ((v1.y - v0.y) * (px - v0.x) + (v0.x - v1.x) * (py - v0.y))
      ((v0.y - v2.y) * (px - v0.x) + (v2.x - v0.x) * (py - v0.y))
      ((v1.y - v0.y) * (v2.x - v0.x) + (v0.x - v1.x) * (v2.y - v0.y))
      = insideTest
        (((v1.y - v2.y) * (px - v2.x) + (v2.x - v1.x) * (py - v2.y)) +
          ((v2.y - v0.y) * (px - v2.x) + (v0.x - v2.x) * (py - v2.y)) -
          ((v1.y - v2.y) * (v0.x - v2.x) + (v2.x - v1.x) * (v0.y - v2.y)))
        (-((v2.y - v0.y) * (px - v2.x) + (v0.x - v2.x) * (py - v2.y)))
        (-((v1.y - v2.y) * (v0.x - v2.x) + (v2.x - v1.x) * (v0.y - v2.y))) := by
        congr 1 <;> ring
    _ = insideTest
        ((v1.y - v2.y) * (px - v2.x) + (v2.x - v1.x) * (py - v2.y))
        ((v2.y - v0.y) * (px - v2.x) + (v0.x - v2.x) * (py - v2.y))
        ((v1.y - v2.y) * (v0.x - v2.x) + (v2.x - v1.x) * (v0.y - v2.y)) := hrev

/-- Claim C4: the GameObject constructor performs no mass validation: a body
constructed with zero or negative mass is accepted silently, the value is
stored verbatim, and no failure outcome is reported to the caller. -/
theorem mkGameObject_accepts_nonpositive_mass :
    (mkGameObject 0 0 30 30 0 none).mass = 0 ∧
    (mkGameObject 0 0 30 30 (-5) none).mass = -5 :=
  ⟨rfl, rfl⟩

/-- Claim C2: for every shape pair (all nine kind combinations of box,
circle, triangle) and every pair of bodies, the overlap test is symmetric
in effect: isCollidingWith evaluated as A-versus-B returns the same boolean
as B-versus-A, even though mirrored cases are implemented by delegation to
one owning kind. -/
theorem isCollidingWith_symm (sq : ℚ → ℚ) (c1 c2 : Collider) (o1 o2 : Body) :
    isCollidingWith sq c1 c2 o1 o2 = isCollidingWith sq c2 c1 o2 o1 := by
  cases c1 <;> cases c2
  · -- box, box
    simp only [isCollidingWith, boxBoxTest, decide_eq_decide]
    constructor
    · rintro ⟨h1, h2, h3, h4⟩
      exact ⟨by linarith, by linarith, by linarith, by linarith⟩
    · rintro ⟨h1, h2, h3, h4⟩
      exact ⟨by linarith, by linarith, by linarith, by linarith⟩
  · -- box, circle: the circle side delegates to the box implementation
    rfl
  · -- box, triangle: the box side delegates to the triangle implementation
    rfl
  · -- circle, box
    rfl
  · -- circle, circle
    simp only [isCollidingWith, circleCircleTest, decide_eq_decide]
    constructor
    · intro h
      nlinarith [h]
    · intro h
      nlinarith [h]
  · -- circle, triangle: the two sides are verbatim duplicates in the source
    rfl
  · -- triangle, box
    rfl
  · -- triangle, circle
    rfl
  · -- triangle, triangle: vertex containment checked in both directions
    simp only [isCollidingWith, triangleTriangleTest]
    exact Bool.or_comm _ _

/-- Claim C6: two circles of radius r1 and r2 whose centers (as the code
computes them, position + offset + radius) are at distance d overlap if and
only if d < r1 + r2; in particular the boundary case d = r1 + r2 is
classified as non-overlapping. -/
theorem circleCircle_overlap_iff (sq : ℚ → ℚ) (aox aoy r1 box2 boy2 r2 : ℚ)
    (o1 o2 : Body) (d : ℚ)
    (hr1 : 0 ≤ r1) (hr2 : 0 ≤ r2) (hd0 : 0 ≤ d)
    (hd : d * d =
      ((o1.x + aox + r1) - (o2.x + box2 + r2)) * ((o1.x + aox + r1) - (o2.x + box2 + r2)) +
      ((o1.y + aoy + r1) - (o2.y + boy2 + r2)) * ((o1.y + aoy + r1) - (o2.y + boy2 + r2))) :
    (isCollidingWith sq (Collider.circle aox aoy r1) (Collider.circle box2 boy2 r2) o1 o2
      = true) ↔ d < r1 + r2 := by
  simp only [isCollidingWith, circleCircleTest, decide_eq_true_eq]
  constructor
  · intro h
    nlinarith [h, hd, hd0, hr1, hr2]
  · intro h
    nlinarith [h, hd, hd0, hr1, hr2]

/-- Claim C1 counterexample: the shapes of cexA1 and cexB1 report an overlap
(their colliders coincide), yet resolveCollision leaves both bodies entirely
unchanged — no axis is resolved and neither velocity component is zeroed —
because the default path re-checks overlap using body x/y/width/height
rather than collider geometry. -/
theorem defaultPath_ignores_collider_geometry :
    isColliding ratSqrt cexA1 cexB1 = true ∧
    resolveCollision ratSqrt zeroAtan 0 cexA1 cexB1 = (cexA1, cexB1) ∧
    cexA1.vx = 5 ∧ cexB1.vx = -4 := by
  refine ⟨?_, ?_, rfl, rfl⟩
  · norm_num [isColliding, cexA1, cexB1, isCollidingWith, boxBoxTest]
  · norm_num [resolveCollision, cexA1, cexB1, defaultResolve, ovX, ovY, halfW, halfH]

/-- Claim C1 (amended): for every pair of bodies on the default path
(box-box, circle-circle, box-circle) whose body bounding boxes overlap on
both axes — the path re-checks overlap using body width/height, not the
collider geometry the shape test used — resolveCollision resolves along the
axis of smaller bounding-box penetration (y on ties), splits the positional
correction with share_a = mass_b / (mass_a + mass_b) so the heavier body
moves less, and sets both bodies' velocity component along the resolved
axis to zero. -/
theorem defaultPath_resolution_spec (sq : ℚ → ℚ) (at2 : ℚ → ℚ → ℚ) (piv : ℚ)
    (a b : Body)
    (hca : isBoxOrCircleC a.collider = true) (hcb : isBoxOrCircleC b.collider = true)
    (h1 : |ovX a b| < halfW a b) (h2 : |ovY a b| < halfH a b) :
    resolveCollision sq at2 piv a b = defaultResolve a b ∧
    (penX a b < penY a b →
      (resolveCollision sq at2 piv a b).1.vx = 0 ∧
      (resolveCollision sq at2 piv a b).2.vx = 0 ∧
      (0 < ovX a b →
        (resolveCollision sq at2 piv a b).1.x = a.x + penX a b * (b.mass / (a.mass + b.mass)) ∧
        (resolveCollision sq at2 piv a b).2.x = b.x - penX a b * (a.mass / (a.mass + b.mass))) ∧
      (¬ 0 < ovX a b →
        (resolveCollision sq at2 piv a b).1.x = a.x - penX a b * (b.mass / (a.mass + b.mass)) ∧
        (resolveCollision sq at2 piv a b).2.x = b.x + penX a b * (a.mass / (a.mass + b.mass)))) ∧
    (¬ penX a b < penY a b →
      (resolveCollision sq at2 piv a b).1.vy = 0 ∧
      (resolveCollision sq at2 piv a b).2.vy = 0 ∧
      (0 < ovY a b →
        (resolveCollision sq at2 piv a b).1.y = a.y + penY a b * (b.mass / (a.mass + b.mass)) ∧
        (resolveCollision sq at2 piv a b).2.y = b.y - penY a b * (a.mass / (a.mass + b.mass))) ∧
      (¬ 0 < ovY a b →
        (resolveCollision sq at2 piv a b).1.y = a.y - penY a b * (b.mass / (a.mass + b.mass)) ∧
        (resolveCollision sq at2 piv a b).2.y = b.y + penY a b * (a.mass / (a.mass + b.mass)))) := by
  have hres : resolveCollision sq at2 piv a b = defaultResolve a b := by
    rcases hA : a.collider with _ | ca
    · rw [hA] at hca
      simp [isBoxOrCircleC] at hca
    · rcases hB : b.collider with _ | cb
      · rw [hB] at hcb
        simp [isBoxOrCircleC] at hcb
      · rw [hA] at hca
        rw [hB] at hcb
        cases ca <;> cases cb <;> simp_all [isBoxOrCircleC, resolveCollision]
  refine ⟨hres, ?_, ?_⟩
  · intro hxy
    by_cases hs : 0 < ovX a b
    · simp only [hres, defaultResolve, if_pos (And.intro h1 h2), if_pos hxy, if_pos hs]
      simp [hs]
    · simp only [hres, defaultResolve, if_pos (And.intro h1 h2), if_pos hxy, if_neg hs]
      simp [hs]
  · intro hxy
    by_cases hs : 0 < ovY a b
    · simp only [hres, defaultResolve, if_pos (And.intro h1 h2), if_neg hxy, if_pos hs]
      simp [hs]
    · simp only [hres, defaultResolve, if_pos (And.intro h1 h2), if_neg hxy, if_neg hs]
      simp [hs]

/-- Concrete discharge of defaultPath_resolution_spec: wA1 and wB1 overlap
on both axes with the x penetration smaller, and after resolution both
horizontal velocities are zero. -/
theorem defaultPath_resolution_spec_witness :
    isBoxOrCircleC wA1.collider = true ∧ isBoxOrCircleC wB1.collider = true ∧
    |ovX wA1 wB1| < halfW wA1 wB1 ∧ |ovY wA1 wB1| < halfH wA1 wB1 ∧
    (resolveCollision ratSqrt zeroAtan 0 wA1 wB1).1.vx = 0 ∧
    (resolveCollision ratSqrt zeroAtan 0 wA1 wB1).2.vx = 0 :=
  ⟨by norm_num [isBoxOrCircleC, wA1],
   by norm_num [isBoxOrCircleC, wB1],
   by norm_num [ovX, halfW, wA1, wB1],
   by norm_num [ovY, halfH, wA1, wB1],
   ((defaultPath_resolution_spec ratSqrt zeroAtan 0 wA1 wB1
      (by norm_num [isBoxOrCircleC, wA1]) (by norm_num [isBoxOrCircleC, wB1])
      (by norm_num [ovX, halfW, wA1, wB1]) (by norm_num [ovY, halfH, wA1, wB1])).2.1
      (by norm_num [penX, penY, ovX, ovY, halfW, halfH, wA1, wB1])).1,
   ((defaultPath_resolution_spec ratSqrt zeroAtan 0 wA1 wB1
      (by norm_num [isBoxOrCircleC, wA1]) (by norm_num [isBoxOrCircleC, wB1])
      (by norm_num [ovX, halfW, wA1, wB1]) (by norm_num [ovY, halfH, wA1, wB1])).2.1
      (by norm_num [penX, penY, ovX, ovY, halfW, halfH, wA1, wB1])).2.1⟩

/-- Claim C8 counterexample: cexA8 and cexB8 overlap as boxes, the default
path resolves them along x and zeroes both horizontal velocities, yet
re-running the box-box overlap test immediately after resolution still
returns true, because the test uses the 100-wide colliders while the
resolution separated only the 10-wide body rectangles. -/
theorem boxBox_residual_overlap_after_resolution :
    isColliding ratSqrt cexA8 cexB8 = true ∧
    (resolveCollision ratSqrt zeroAtan 0 cexA8 cexB8).1.vx = 0 ∧
    (resolveCollision ratSqrt zeroAtan 0 cexA8 cexB8).2.vx = 0 ∧
    isColliding ratSqrt (resolveCollision ratSqrt zeroAtan 0 cexA8 cexB8).1
      (resolveCollision ratSqrt zeroAtan 0 cexA8 cexB8).2 = true := by
  norm_num [isColliding, isCollidingWith, boxBoxTest, resolveCollision,
    defaultResolve, ovX, ovY, halfW, halfH, penX, penY, cexA8, cexB8]

/-- Claim C8 (amended): for box-box pairs whose colliders have zero offset
and the same width/height as their bodies (so shape overlap coincides with
body-rectangle overlap) and positive masses, after resolveCollision both
bodies' velocity component along the resolved axis is zero and re-running
the box-box overlap test on the pair returns false; with collider geometry
differing from the body rectangle the re-test can remain true, as the
counterexample shows. -/
theorem boxBox_resolution_separates (sq : ℚ → ℚ) (at2 : ℚ → ℚ → ℚ) (piv : ℚ)
    (a b : Body)
    (hA : a.collider = some (Collider.box 0 0 a.width a.height))
    (hB : b.collider = some (Collider.box 0 0 b.width b.height))
    (hma : 0 < a.mass) (hmb : 0 < b.mass)
    (hcol : isColliding sq a b = true) :
    (penX a b < penY a b →
      (resolveCollision sq at2 piv a b).1.vx = 0 ∧
      (resolveCollision sq at2 piv a b).2.vx = 0) ∧
    (¬ penX a b < penY a b →
      (resolveCollision sq at2 piv a b).1.vy = 0 ∧
      (resolveCollision sq at2 piv a b).2.vy = 0) ∧
    isColliding sq (resolveCollision sq at2 piv a b).1
      (resolveCollision sq at2 piv a b).2 = false := by
  simp only [isColliding, hA, hB, isCollidingWith, boxBoxTest, decide_eq_true_eq,
    add_zero] at hcol
  obtain ⟨hc1, hc2, hc3, hc4⟩ := hcol
  have hov : ovX a b = a.x + a.width / 2 - (b.x + b.width / 2) := rfl
  have hovy : ovY a b = a.y + a.height / 2 - (b.y + b.height / 2) := rfl
  have hhw : halfW a b = (a.width + b.width) / 2 := rfl
  have hhh : halfH a b = (a.height + b.height) / 2 := rfl
  have h1 : |ovX a b| < halfW a b := by
    rw [abs_lt]
    constructor
    · rw [hov, hhw]; linarith
    · rw [hov, hhw]; linarith
  have h2 : |ovY a b| < halfH a b := by
    rw [abs_lt]
    constructor
    · rw [hovy, hhh]; linarith
    · rw [hovy, hhh]; linarith
  have hres : resolveCollision sq at2 piv a b = defaultResolve a b := by
    simp [resolveCollision, hA, hB]
  have hT : a.mass + b.mass ≠ 0 := by positivity
  have hshare : b.mass / (a.mass + b.mass) + a.mass / (a.mass + b.mass) = 1 := by
    field_simp
    ring
  by_cases hxy : penX a b < penY a b
  · by_cases hs : 0 < ovX a b
    · have hr : resolveCollision sq at2 piv a b =
          ({a with x := a.x + penX a b * (b.mass / (a.mass + b.mass)), vx := 0},
           {b with x := b.x - penX a b * (a.mass / (a.mass + b.mass)), vx := 0}) := by
        rw [hres]
        simp only [defaultResolve, if_pos (And.intro h1 h2), if_pos hxy, if_pos hs]
      have hpen : penX a b = halfW a b - ovX a b := by
        unfold penX
        rw [abs_of_pos hs]
      have hx : penX a b * (b.mass / (a.mass + b.mass)) +
          penX a b * (a.mass / (a.mass + b.mass)) = penX a b := by
        rw [← mul_add, hshare, mul_one]
      refine ⟨fun _ => ?_, fun hk => absurd hxy hk, ?_⟩
      · rw [hr]
        exact ⟨rfl, rfl⟩
      · rw [hr]
        simp only [isColliding, hA, hB, isCollidingWith, boxBoxTest, add_zero]
        rw [decide_eq_false_iff_not]
        rintro ⟨k1, k2, k3, k4⟩
        rw [hov, hhw] at hpen
        linarith [hpen, hx, k1]
    · have hr : resolveCollision sq at2 piv a b =
          ({a with x := a.x - penX a b * (b.mass / (a.mass + b.mass)), vx := 0},
           {b with x := b.x + penX a b * (a.mass / (a.mass + b.mass)), vx := 0}) := by
        rw [hres]
        simp only [defaultResolve, if_pos (And.intro h1 h2), if_pos hxy, if_neg hs]
      have hpen : penX a b = halfW a b + ovX a b := by
        unfold penX
        rw [abs_of_nonpos (le_of_not_lt hs)]
        ring
      have hx : penX a b * (b.mass / (a.mass + b.mass)) +
          penX a b * (a.mass / (a.mass + b.mass)) = penX a b := by
        rw [← mul_add, hshare, mul_one]
      refine ⟨fun _ => ?_, fun hk => absurd hxy hk, ?_⟩
      · rw [hr]
        exact ⟨rfl, rfl⟩
      · rw [hr]
        simp only [isColliding, hA, hB, isCollidingWith, boxBoxTest, add_zero]
        rw [decide_eq_false_iff_not]
        rintro ⟨k1, k2, k3, k4⟩
        rw [hov, hhw] at hpen
        linarith [hpen, hx, k2]
  · by_cases hs : 0 < ovY a b
    · have hr : resolveCollision sq at2 piv a b =
          ({a with y := a.y + penY a b * (b.mass / (a.mass + b.mass)), vy := 0},
           {b with y := b.y - penY a b * (a.mass / (a.mass + b.mass)), vy := 0}) := by
        rw [hres]
        simp only [defaultResolve, if_pos (And.intro h1 h2), if_neg hxy, if_pos hs]
      have hpen : penY a b = halfH a b - ovY a b := by
        unfold penY
        rw [abs_of_pos hs]
      have hx : penY a b * (b.mass / (a.mass + b.mass)) +
          penY a b * (a.mass / (a.mass + b.mass)) = penY a b := by
        rw [← mul_add, hshare, mul_one]
      refine ⟨fun hk => absurd hk hxy, fun _ => ?_, ?_⟩
      · rw [hr]
        exact ⟨rfl, rfl⟩
      · rw [hr]
        simp only [isColliding, hA, hB, isCollidingWith, boxBoxTest, add_zero]
        rw [decide_eq_false_iff_not]
        rintro ⟨k1, k2, k3, k4⟩
        rw [hovy, hhh] at hpen
        linarith [hpen, hx, k3]
    · have hr : resolveCollision sq at2 piv a b =
          ({a with y := a.y - penY a b * (b.mass / (a.mass + b.mass)), vy := 0},
           {b with y := b.y + penY a b * (a.mass / (a.mass + b.mass)), vy := 0}) := by
        rw [hres]
        simp only [defaultResolve, if_pos (And.intro h1 h2), if_neg hxy, if_neg hs]
      have hpen : penY a b = halfH a b + ovY a b := by
        unfold penY
        rw [abs_of_nonpos (le_of_not_lt hs)]
        ring
      have hx : penY a b * (b.mass / (a.mass + b.mass)) +
          penY a b * (a.mass / (a.mass + b.mass)) = penY a b := by
        rw [← mul_add, hshare, mul_one]
      refine ⟨fun hk => absurd hk hxy, fun _ => ?_, ?_⟩
      · rw [hr]
        exact ⟨rfl, rfl⟩
      · rw [hr]
        simp only [isColliding, hA, hB, isCollidingWith, boxBoxTest, add_zero]
        rw [decide_eq_false_iff_not]
        rintro ⟨k1, k2, k3, k4⟩
        rw [hovy, hhh] at hpen
        linarith [hpen, hx, k4]

/-- Concrete discharge of boxBox_resolution_separates: two equal-geometry
boxes that overlap get separated, with both horizontal velocities zeroed
and the re-run overlap test false. -/
theorem boxBox_resolution_separates_witness :
    wA1.collider = some (Collider.box 0 0 wA1.width wA1.height) ∧
    wB1.collider = some (Collider.box 0 0 wB1.width wB1.height) ∧
    (0:ℚ) < wA1.mass ∧ (0:ℚ) < wB1.mass ∧
    isColliding ratSqrt wA1 wB1 = true ∧
    isColliding ratSqrt (resolveCollision ratSqrt zeroAtan 0 wA1 wB1).1
      (resolveCollision ratSqrt zeroAtan 0 wA1 wB1).2 = false :=
  ⟨by norm_num [wA1], by norm_num [wB1], by norm_num [wA1], by norm_num [wB1],
   by norm_num [isColliding, isCollidingWith, boxBoxTest, wA1, wB1],
   (boxBox_resolution_separates ratSqrt zeroAtan 0 wA1 wB1
      (by norm_num [wA1]) (by norm_num [wB1]) (by norm_num [wA1]) (by norm_num [wB1])
      (by norm_num [isColliding, isCollidingWith, boxBoxTest, wA1, wB1])).2.2⟩

/-- Concrete discharge of circleCircle_overlap_iff: two circles of radii 2
and 3 with centers (2,2) and (5,6), hence at exact distance 5 = 2 + 3, are
classified as non-overlapping. -/
theorem circleCircle_overlap_iff_witness :
    (0:ℚ) ≤ 2 ∧ (0:ℚ) ≤ 3 ∧ (0:ℚ) ≤ 5 ∧
    ((5:ℚ) * 5 =
      (((mkGameObject 0 0 30 30 1 none).x + 0 + 2) - ((mkGameObject 2 3 30 30 1 none).x + 0 + 3)) *
        (((mkGameObject 0 0 30 30 1 none).x + 0 + 2) - ((mkGameObject 2 3 30 30 1 none).x + 0 + 3)) +
      (((mkGameObject 0 0 30 30 1 none).y + 0 + 2) - ((mkGameObject 2 3 30 30 1 none).y + 0 + 3)) *
        (((mkGameObject 0 0 30 30 1 none).y + 0 + 2) - ((mkGameObject 2 3 30 30 1 none).y + 0 + 3))) ∧
    ((isCollidingWith (fun q => q) (Collider.circle 0 0 2) (Collider.circle 0 0 3)
        (mkGameObject 0 0 30 30 1 none) (mkGameObject 2 3 30 30 1 none) = true) ↔ (5:ℚ) < 2 + 3) :=
  ⟨by norm_num, by norm_num, by norm_num, by norm_num [mkGameObject],
   circleCircle_overlap_iff (fun q => q) 0 0 2 0 0 3
     (mkGameObject 0 0 30 30 1 none) (mkGameObject 2 3 30 30 1 none) 5
     (by norm_num) (by norm_num) (by norm_num) (by norm_num [mkGameObject])⟩

/-- Claim C10: the triangle-specific resolution branches apply only when
the non-triangle body's gravity flag is true: for every colliding pair of a
triangle body with a circle or box body whose hasGravity is false,
resolveCollision (in either operand order) falls through to the default
bounding-box path, and when the branch does fire the triangle body itself
is never mutated. -/
theorem triangleBranch_gating (sq : ℚ → ℚ) (at2 : ℚ → ℚ → ℚ) (piv : ℚ)
    (a b : Body) (t0 t1 t2 : Pt) (tox toy : ℚ)
    (hA : a.collider = some (Collider.triangle t0 t1 t2 tox toy))
    (hB : isBoxOrCircleC b.collider = true)
    (_hcol : isColliding sq a b = true) :
    (b.hasGravity = false →
      resolveCollision sq at2 piv a b = defaultResolve a b ∧
      resolveCollision sq at2 piv b a = defaultResolve b a) ∧
    (b.hasGravity = true →
      (resolveCollision sq at2 piv a b).1 = a ∧
      (resolveCollision sq at2 piv b a).2 = a) := by
  rcases hBc : b.collider with _ | cb
  · rw [hBc] at hB
    simp [isBoxOrCircleC] at hB
  · cases cb with
    | box bx bby bw bh =>
        constructor
        · intro hg
          constructor <;> simp [resolveCollision, hA, hBc, hg]
        · intro hg
          constructor <;> simp [resolveCollision, hA, hBc, hg]
    | circle cox coy cr =>
        constructor
        · intro hg
          constructor <;> simp [resolveCollision, hA, hBc, hg]
        · intro hg
          constructor <;> simp [resolveCollision, hA, hBc, hg]
    | triangle u0 u1 u2 uox uoy =>
        rw [hBc] at hB
        simp [isBoxOrCircleC] at hB

/-- Concrete discharge of triangleBranch_gating: the static triangle triBody
and the gravity-enabled circle circBody collide, and the gating conclusions
hold for them. -/
theorem triangleBranch_gating_witness :
    triBody.collider = some (Collider.triangle ⟨0, 0⟩ ⟨100, 0⟩ ⟨0, 100⟩ 0 0) ∧
    isBoxOrCircleC circBody.collider = true ∧
    isColliding ratSqrt triBody circBody = true ∧
    ((circBody.hasGravity = false →
      resolveCollision ratSqrt zeroAtan 0 triBody circBody = defaultResolve triBody circBody ∧
      resolveCollision ratSqrt zeroAtan 0 circBody triBody = defaultResolve circBody triBody) ∧
     (circBody.hasGravity = true →
      (resolveCollision ratSqrt zeroAtan 0 triBody circBody).1 = triBody ∧
      (resolveCollision ratSqrt zeroAtan 0 circBody triBody).2 = triBody)) :=
  ⟨rfl, rfl,
   by norm_num [isColliding, triBody, circBody, isCollidingWith, triangleCircleTest,
     pointInTriangle, insideTest],
   triangleBranch_gating ratSqrt zeroAtan 0 triBody circBody ⟨0, 0⟩ ⟨100, 0⟩ ⟨0, 100⟩ 0 0
     rfl rfl
     (by norm_num [isColliding, triBody, circBody, isCollidingWith, triangleCircleTest,
       pointInTriangle, insideTest])⟩

/-- Claim C7: for every body with gravity enabled and positive mass, one
tick that neither reaches the floor nor collides increases vy by exactly
(9.8 * PPM) * deltaTime, independently of the mass, because the gravity
force mass * GRAVITY is divided by mass to obtain the acceleration. -/
theorem gravity_tick_delta_vy (H : ℚ) (obj : Body)
    (hg : obj.hasGravity = true) (hm : 0 < obj.mass)
    (hfloor : obj.y + (obj.vy + GRAVITY * deltaTime) * deltaTime + obj.height ≤ H) :
    (updateBody H obj).vy = obj.vy + (9.8 * PPM) * deltaTime := by
  have hay : obj.mass * GRAVITY / obj.mass = GRAVITY :=
    mul_div_cancel_left₀ GRAVITY (ne_of_gt hm)
  simp only [updateBody, hg, if_true, List.map_cons, List.map_nil, List.sum_cons,
    List.sum_nil, add_zero, zero_div, zero_mul, hay]
  rw [if_neg (not_lt.mpr hfloor)]
  show obj.vy + GRAVITY * deltaTime = obj.vy + 9.8 * PPM * deltaTime
  rw [GRAVITY]

/-- Concrete discharge of gravity_tick_delta_vy: a mass-7 body far above a
floor at height 10000 gains exactly (9.8 * PPM) * deltaTime of vertical
velocity in one tick. -/
theorem gravity_tick_delta_vy_witness :
    gravObj.hasGravity = true ∧ (0:ℚ) < gravObj.mass ∧
    gravObj.y + (gravObj.vy + GRAVITY * deltaTime) * deltaTime + gravObj.height ≤ 10000 ∧
    (updateBody 10000 gravObj).vy = gravObj.vy + (9.8 * PPM) * deltaTime :=
  ⟨rfl, by norm_num [gravObj, mkGameObject],
   by norm_num [gravObj, mkGameObject, GRAVITY, PPM, deltaTime, tickInterval, tickrate],
   gravity_tick_delta_vy 10000 gravObj rfl (by norm_num [gravObj, mkGameObject])
     (by norm_num [gravObj, mkGameObject, GRAVITY, PPM, deltaTime, tickInterval, tickrate])⟩

/-- Claim C3: zero distances reached during resolution are not guarded.  The
pair (triBody, circBody) is reported as colliding; in the triangle-circle
resolution the circle center lies exactly at the closest triangle point
(dist = 0, overlap = radius > 0), the code divides 0/0 = NaN, and NaN
propagates into the circle's stored x and y, instead of the case being
treated as non-colliding or skipped. -/
theorem triCircle_zero_distance_writes_nan :
    isColliding ratSqrt triBody circBody = true ∧
    triCircleResolveNaN ratSqrt triBody circBody 0 0 ⟨0, 0⟩ ⟨100, 0⟩ ⟨0, 100⟩ 0 0 15 =
      (JNum.nan, JNum.nan, JNum.num 3, JNum.num 5) := by
  constructor
  · norm_num [isColliding, triBody, circBody, isCollidingWith, triangleCircleTest,
      pointInTriangle, insideTest]
  · have h0 : ratSqrt 0 = 0 := by
      unfold ratSqrt
      norm_num
    norm_num [triCircleResolveNaN, triBody, circBody, closestPointOnTriangle,
      closestPointOnSegment, pointInTriangle, insideTest, h0,
      JNum.div, JNum.add, JNum.mul, JNum.sub, JNum.lt]

/-- Evaluation of the rational square-root helper at 16. -/
theorem ratSqrt_sixteen : ratSqrt 16 = 4 := by
  unfold ratSqrt
  norm_num [Rat.num_ofNat, Rat.den_ofNat]
  rw [show (Int.toNat 16) = 16 from rfl, show (16:ℕ) = 4 * 4 from rfl, Nat.sqrt_eq]
  norm_num

/-- Claim C9: when a triangle-vs-dynamic-circle overlap is resolved with
positive overlap cr - d (d the distance from circle center to the closest
triangle point, positive so the normal is defined, with the square root
exact at that point), the circle is translated along the normalized
closest-point-to-center vector (a unit vector) by exactly the overlap
amount; if the velocity opposes that outward normal its normal component is
removed while the tangential component is preserved unchanged, and
otherwise the velocity is left entirely unchanged.  The triangle operand is
not modified. -/
theorem triCircle_resolution_spec (sq : ℚ → ℚ) (at2 : ℚ → ℚ → ℚ) (piv : ℚ)
    (a b : Body) (t0 t1 t2 : Pt) (tox toy cox coy cr : ℚ)
    (cp : Pt) (dx dy d : ℚ)
    (hA : a.collider = some (Collider.triangle t0 t1 t2 tox toy))
    (hB : b.collider = some (Collider.circle cox coy cr))
    (hG : b.hasGravity = true)
    (hcp : closestPointOnTriangle (b.x + cox + cr) (b.y + coy + cr)
      ⟨a.x + tox + t0.x, a.y + toy + t0.y⟩
      ⟨a.x + tox + t1.x, a.y + toy + t1.y⟩
      ⟨a.x + tox + t2.x, a.y + toy + t2.y⟩ = cp)
    (hdx : dx = (b.x + cox + cr) - cp.x)
    (hdy : dy = (b.y + coy + cr) - cp.y)
    (hd : sq (dx * dx + dy * dy) = d)
    (hd0 : 0 < d)
    (hsq : d * d = dx * dx + dy * dy)
    (hov : 0 < cr - d) :
    (resolveCollision sq at2 piv a b).1 = a ∧
    (resolveCollision sq at2 piv a b).2.x = b.x + dx / d * (cr - d) ∧
    (resolveCollision sq at2 piv a b).2.y = b.y + dy / d * (cr - d) ∧
    (dx / d) * (dx / d) + (dy / d) * (dy / d) = 1 ∧
    (b.vx * (dx / d) + b.vy * (dy / d) < 0 →
      (resolveCollision sq at2 piv a b).2.vx * (dx / d) +
        (resolveCollision sq at2 piv a b).2.vy * (dy / d) = 0 ∧
      (resolveCollision sq at2 piv a b).2.vx * (-(dy / d)) +
        (resolveCollision sq at2 piv a b).2.vy * (dx / d) =
        b.vx * (-(dy / d)) + b.vy * (dx / d)) ∧
    (¬ b.vx * (dx / d) + b.vy * (dy / d) < 0 →
      (resolveCollision sq at2 piv a b).2.vx = b.vx ∧
      (resolveCollision sq at2 piv a b).2.vy = b.vy) := by
  have hdne : d ≠ 0 := ne_of_gt hd0
  have hres : resolveCollision sq at2 piv a b =
      (a, triCircleResolve sq a b tox toy t0 t1 t2 cox coy cr) := by
    simp [resolveCollision, hA, hB, hG]
  have hform : triCircleResolve sq a b tox toy t0 t1 t2 cox coy cr =
      (if b.vx * (dx / d) + b.vy * (dy / d) < 0 then
        { b with
          x := b.x + dx / d * (cr - d)
          y := b.y + dy / d * (cr - d)
          vx := (b.vx - (b.vx * (dx / d) + b.vy * (dy / d)) * (dx / d)) * 1
          vy := (b.vy - (b.vx * (dx / d) + b.vy * (dy / d)) * (dy / d)) * 1 }
      else
        { b with
          x := b.x + dx / d * (cr - d)
          y := b.y + dy / d * (cr - d) }) := by
    simp only [triCircleResolve]
    rw [hcp, ← hdx, ← hdy, hd, if_pos hov]
  have hunit : (dx / d) * (dx / d) + (dy / d) * (dy / d) = 1 := by
    field_simp
    linarith [hsq]
  rw [hres, hform]
  by_cases hvn : b.vx * (dx / d) + b.vy * (dy / d) < 0
  · rw [if_pos hvn]
    refine ⟨rfl, rfl, rfl, hunit, fun _ => ⟨?_, ?_⟩, fun hk => absurd hvn hk⟩
    · field_simp
      linear_combination (b.vx * dx + b.vy * dy) * hsq
    · field_simp
      ring
  · rw [if_neg hvn]
    exact ⟨rfl, rfl, rfl, hunit, fun hk => absurd hk hvn, fun _ => ⟨rfl, rfl⟩⟩

/-- Concrete discharge of triCircle_resolution_spec: circBody9's center
(30, -4) projects to (30, 0) on the base edge of triBody9's triangle at
distance 4 < 15, and the conclusions hold with the velocity (3, 5) opposing
the outward normal (0, -1). -/
theorem triCircle_resolution_spec_witness :
    (0:ℚ) < 4 ∧ ((4:ℚ) * 4 = 0 * 0 + (-4) * (-4)) ∧ ((0:ℚ) < 15 - 4) ∧
    (resolveCollision ratSqrt zeroAtan 0 triBody9 circBody9).1 = triBody9 ∧
    (resolveCollision ratSqrt zeroAtan 0 triBody9 circBody9).2.x =
      circBody9.x + 0 / 4 * (15 - 4) ∧
    (resolveCollision ratSqrt zeroAtan 0 triBody9 circBody9).2.y =
      circBody9.y + (-4) / 4 * (15 - 4) :=
  ⟨by norm_num, by norm_num, by norm_num,
   (triCircle_resolution_spec ratSqrt zeroAtan 0 triBody9 circBody9
      ⟨0, 0⟩ ⟨100, 0⟩ ⟨50, 100⟩ 0 0 0 0 15 ⟨30, 0⟩ 0 (-4) 4
      rfl rfl rfl
      (by norm_num [triBody9, circBody9, closestPointOnTriangle, closestPointOnSegment,
        pointInTriangle, insideTest])
      (by norm_num [circBody9]) (by norm_num [circBody9])
      (by rw [show ((0:ℚ) * 0 + (-4) * (-4)) = 16 by norm_num]; exact ratSqrt_sixteen)
      (by norm_num) (by norm_num) (by norm_num)).1,
   (triCircle_resolution_spec ratSqrt zeroAtan 0 triBody9 circBody9
      ⟨0, 0⟩ ⟨100, 0⟩ ⟨50, 100⟩ 0 0 0 0 15 ⟨30, 0⟩ 0 (-4) 4
      rfl rfl rfl
      (by norm_num [triBody9, circBody9, closestPointOnTriangle, closestPointOnSegment,
        pointInTriangle, insideTest])
      (by norm_num [circBody9]) (by norm_num [circBody9])
      (by rw [show ((0:ℚ) * 0 + (-4) * (-4)) = 16 by norm_num]; exact ratSqrt_sixteen)
      (by norm_num) (by norm_num) (by norm_num)).2.1,
   (triCircle_resolution_spec ratSqrt zeroAtan 0 triBody9 circBody9
      ⟨0, 0⟩ ⟨100, 0⟩ ⟨50, 100⟩ 0 0 0 0 15 ⟨30, 0⟩ 0 (-4) 4
      rfl rfl rfl
      (by norm_num [triBody9, circBody9, closestPointOnTriangle, closestPointOnSegment,
        pointInTriangle, insideTest])
      (by norm_num [circBody9]) (by norm_num [circBody9])
      (by rw [show ((0:ℚ) * 0 + (-4) * (-4)) = 16 by norm_num]; exact ratSqrt_sixteen)
      (by norm_num) (by norm_num) (by norm_num)).2.2.1⟩

end MecSim
